import Mathlib

/-!
Verification of the distributed-lock coordinator of CartoDB-SQL-API
(batch/leader redis-distlock provider) against its natural-language
specification.

The coordinator code is a small callback-based JavaScript module.  We embed
it shallowly: the in-memory lease table becomes an association list, the
external collaborators (connection pool, redlock library) are modelled by an
environment value that supplies the outcome of each pool acquisition and
each store operation, and every call produces, besides its new state and its
callback result, a trace of observable events (pool acquisitions, pool
releases, store operations with the server set used, callback invocation).
-/

namespace Distlock

/-- A pooled store connection, identified by a number. -/
abbrev Client := Nat

/-- Errors surfaced by the pool or the lock library; content is opaque. -/
abbrev Err := String

deriving instance DecidableEq for Except

/-- A lease handle as produced by the lock library: the resource it
protects, the unique owner token, and the absolute expiry time. -/
structure Lease where
  resource : String
  value : String
  expiresAt : Nat
deriving Repr, DecidableEq, BEq

/-- The kind of store operation performed through the redlock object. -/
inductive RedlockKind where
  | extend
  | acquire
  | release
deriving Repr, DecidableEq, BEq

/-- Observable events of one coordinator call. -/
inductive Event where
  | poolAcquired (client : Client)
  | poolReleased (client : Client)
  | redlockOp (kind : RedlockKind) (servers : List Client)
  | callbackFired
deriving Repr, DecidableEq, BEq

/-- The source constant REDIS_DISTLOCK.DB. -/
def REDIS_DISTLOCK_DB : Nat := 5

/-- The source constant REDIS_DISTLOCK.PREFIX, the fixed namespace put in
front of every caller-supplied key. -/
def redisDistlockNamespace : String := "batch:locks:"

/-- resourceId(host) from the source: namespace concatenated with host. -/
def resourceId (host : String) : String := redisDistlockNamespace ++ host

/-- The coordinator state: the process-local lease table this._locks,
embedded as an association list from resource identifier to lease. -/
structure RedisDistlockLocker where
  locks : List (String × Lease)
deriving Repr, DecidableEq, BEq

/-- _getLock from the source: plain lookup, no expiry check of any kind. -/
def getLock (self : RedisDistlockLocker) (resource : String) : Option Lease :=
  self.locks.lookup resource

/-- _setLock from the source: map update of this._locks at resource. -/
def setLock (self : RedisDistlockLocker) (resource : String) (l : Lease) :
    RedisDistlockLocker :=
  ⟨(resource, l) :: self.locks.filter (fun p => !(p.1 == resource))⟩

/-- The environment of one pooled store operation: the outcome of
pool.acquire and the outcome of the redlock operation performed with the
obtained client. -/
structure WrapEnv where
  pool : Except Err Client
  op : Except Err Lease
deriving Repr, DecidableEq

/-- _tryExtend from the source: acquire a pool connection (propagating a
pool error to the callback), set redlock.servers to exactly that client,
run lock.extend, release the connection, hand the operation outcome to the
callback.  Returns the event trace and the value passed to the callback. -/
def tryExtend (env : WrapEnv) : List Event × Except Err Lease :=
  match env.pool with
  | .error e => ([], .error e)
  | .ok client =>
      ([.poolAcquired client,
        .redlockOp .extend [client],
        .poolReleased client],
       env.op)

/-- _tryAcquire from the source: acquire a pool connection (propagating a
pool error to the callback), set redlock.servers to exactly that client,
run redlock.lock on the resource, release the connection, hand the outcome
to the callback. -/
def tryAcquire (env : WrapEnv) : List Event × Except Err Lease :=
  match env.pool with
  | .error e => ([], .error e)
  | .ok client =>
      ([.poolAcquired client,
        .redlockOp .acquire [client],
        .poolReleased client],
       env.op)

/-- The environment of one lock call: outcomes for the (at most one)
extend attempt and the (at most one) acquire attempt. -/
structure LockCallEnv where
  ext : WrapEnv
  acq : WrapEnv
deriving Repr, DecidableEq

/-- The outcome of a lock call: the new coordinator state, the event
trace, and the value the caller-facing callback receives. -/
structure LockOutcome where
  state : RedisDistlockLocker
  trace : List Event
  result : Except Err Lease
deriving Repr, DecidableEq

/-- lock(host, ttl) from the source.  Looks the resource up in the lease
table (no expiry check); if a lease is found, tries extend and, on any
extend failure, falls back to a fresh acquire; otherwise acquires directly.
Only a successful acquire writes the table (via _setLock inside
acquireCallback); the extend-success path returns the extended lease
without touching the table, and no path ever removes an entry. -/
def lockOp (self : RedisDistlockLocker) (env : LockCallEnv) (host : String) :
    LockOutcome :=
  let resource := resourceId host
  match getLock self resource with
  | some _ =>
      let extendRun := tryExtend env.ext
      match extendRun.2 with
      | .ok extended =>
          { state := self
            trace := extendRun.1 ++ [.callbackFired]
            result := .ok extended }
      | .error _ =>
          let acquireRun := tryAcquire env.acq
          match acquireRun.2 with
          | .ok fresh =>
              { state := setLock self resource fresh
                trace := extendRun.1 ++ acquireRun.1 ++ [.callbackFired]
                result := .ok fresh }
          | .error e =>
              { state := self
                trace := extendRun.1 ++ acquireRun.1 ++ [.callbackFired]
                result := .error e }
  | none =>
      let acquireRun := tryAcquire env.acq
      match acquireRun.2 with
      | .ok fresh =>
          { state := setLock self resource fresh
            trace := acquireRun.1 ++ [.callbackFired]
            result := .ok fresh }
      | .error e =>
          { state := self
            trace := acquireRun.1 ++ [.callbackFired]
            result := .error e }

/-- The environment of one unlock call: the pool outcome and the outcome
of redlock.unlock (none means the release reported no error). -/
structure UnlockEnv where
  pool : Except Err Client
  rel : Option Err
deriving Repr, DecidableEq

/-- The outcome of an unlock call.  cbResult is none when the callback is
never invoked (the source returns without calling it when no lease is in
the table), otherwise some of the error value handed to the callback. -/
structure UnlockOutcome where
  state : RedisDistlockLocker
  trace : List Event
  cbResult : Option (Option Err)
deriving Repr, DecidableEq

/-- unlock(host) from the source.  Looks the lease up; if absent, does
nothing and never invokes the callback.  If present, acquires a pool
connection (a pool error goes straight to the callback), sets
redlock.servers to exactly that client, runs redlock.unlock on the lease,
releases the connection and passes the release outcome to the callback.
The lease table is never written: no path removes the entry. -/
def unlockOp (self : RedisDistlockLocker) (env : UnlockEnv) (host : String) :
    UnlockOutcome :=
  match getLock self (resourceId host) with
  | none => { state := self, trace := [], cbResult := none }
  | some _ =>
      match env.pool with
      | .error e =>
          { state := self, trace := [.callbackFired], cbResult := some (some e) }
      | .ok client =>
          { state := self
            trace := [.poolAcquired client,
                      .redlockOp .release [client],
                      .poolReleased client,
                      .callbackFired]
            cbResult := some env.rel }

/-- True of pool-acquisition events. -/
def isPoolAcquired : Event → Bool
  | .poolAcquired _ => true
  | _ => false

/-- True of pool-release events. -/
def isPoolReleased : Event → Bool
  | .poolReleased _ => true
  | _ => false

/-- Number of pool acquisitions in a trace. -/
def acquireCount (t : List Event) : Nat := t.countP isPoolAcquired

/-- Number of pool releases in a trace. -/
def releaseCount (t : List Event) : Nat := t.countP isPoolReleased

/-- Number of acquisitions of one given client in a trace. -/
def clientAcqCount (t : List Event) (c : Client) : Nat :=
  t.countP (fun e => decide (e = .poolAcquired c))

/-- Number of releases of one given client in a trace. -/
def clientRelCount (t : List Event) (c : Client) : Nat :=
  t.countP (fun e => decide (e = .poolReleased c))

/-- True when every callback event of a trace is its last element, so all
other events (pool releases in particular) happen before the callback. -/
def noCallbackInside (t : List Event) : Bool :=
  t.dropLast.all (fun e => !(decide (e = Event.callbackFired)))

/-- True when every store operation of a trace runs over a server set that
is exactly the one client obtained from the pool right before it. -/
def serversMatchPool : List Event → Bool
  | .poolAcquired c :: .redlockOp _ ss :: rest =>
      (ss == [c]) && serversMatchPool rest
  | .redlockOp _ _ :: _ => false
  | _ :: rest => serversMatchPool rest
  | [] => true

/-- True when every store operation of a trace uses a one-element server
set (a quorum of a single node). -/
def singleNodeOps (t : List Event) : Bool :=
  t.all fun e =>
    match e with
    | .redlockOp _ ss => ss.length == 1
    | _ => true

/-- True when the trace holds at least one store operation of the given
kind. -/
def hasOp (t : List Event) (k : RedlockKind) : Bool :=
  t.any fun e =>
    match e with
    | .redlockOp k2 _ => decide (k2 = k)
    | _ => false

/-- C9: the resource identifier is the fixed namespace followed by the
caller-supplied key, computed by a function, and the mapping is injective:
keys that map to the same identifier are equal. -/
theorem C9_resourceId_deterministic_injective (h1 h2 : String)
    (he : resourceId h1 = resourceId h2) :
    resourceId h1 = redisDistlockNamespace ++ h1 ∧ h1 = h2 := by
  refine ⟨rfl, ?_⟩
  have hd : (resourceId h1).data = (resourceId h2).data := by rw [he]
  simp only [resourceId, String.data_append] at hd
  exact String.ext (List.append_cancel_left hd)

/-- Witness for C9 at a concrete key. -/
theorem C9_witness :
    resourceId "host.example" = redisDistlockNamespace ++ "host.example" ∧
      "host.example" = "host.example" :=
  C9_resourceId_deterministic_injective "host.example" "host.example" rfl

/-- C10: on every path of lock and unlock, each store operation (extend,
acquire, release) is run right after overwriting the redlock server set
with exactly the single pooled connection obtained for that call, so every
quorum decision is taken over one node. -/
theorem C10_single_node_quorum (self : RedisDistlockLocker)
    (lenv : LockCallEnv) (uenv : UnlockEnv) (host : String) :
    serversMatchPool (lockOp self lenv host).trace = true ∧
    singleNodeOps (lockOp self lenv host).trace = true ∧
    serversMatchPool (unlockOp self uenv host).trace = true ∧
    singleNodeOps (unlockOp self uenv host).trace = true := by
  obtain ⟨⟨ep, eo⟩, ⟨ap, ao⟩⟩ := lenv
  obtain ⟨up, ur⟩ := uenv
  cases hg : getLock self (resourceId host) <;>
    cases ep <;> cases eo <;> cases ap <;> cases ao <;> cases up <;>
      simp [lockOp, unlockOp, tryExtend, tryAcquire, hg,
        serversMatchPool, singleNodeOps]

/-- C7: in every lock and unlock call, in every environment, the number of
pool acquisitions in the trace equals the number of pool releases, this
holds per client as well, and each callback event is the last event of the
trace, so every release happens before the callback is invoked. -/
theorem C7_pool_discipline (self : RedisDistlockLocker)
    (lenv : LockCallEnv) (uenv : UnlockEnv) (host : String) (c : Client) :
    acquireCount (lockOp self lenv host).trace
        = releaseCount (lockOp self lenv host).trace ∧
    clientAcqCount (lockOp self lenv host).trace c
        = clientRelCount (lockOp self lenv host).trace c ∧
    noCallbackInside (lockOp self lenv host).trace = true ∧
    acquireCount (unlockOp self uenv host).trace
        = releaseCount (unlockOp self uenv host).trace ∧
    clientAcqCount (unlockOp self uenv host).trace c
        = clientRelCount (unlockOp self uenv host).trace c ∧
    noCallbackInside (unlockOp self uenv host).trace = true := by
  obtain ⟨⟨ep, eo⟩, ⟨ap, ao⟩⟩ := lenv
  obtain ⟨up, ur⟩ := uenv
  cases hg : getLock self (resourceId host) <;>
    cases ep <;> cases eo <;> cases ap <;> cases ao <;> cases up <;>
      simp [lockOp, unlockOp, tryExtend, tryAcquire, hg, acquireCount,
        releaseCount, clientAcqCount, clientRelCount, noCallbackInside,
        isPoolAcquired, isPoolReleased, List.countP_cons]

/-- Updating the table and looking the same resource up yields the new
lease. -/
theorem getLock_setLock (self : RedisDistlockLocker) (r : String) (l : Lease) :
    getLock (setLock self r l) r = some l := by
  simp [getLock, setLock, List.lookup]

/-- A concrete lease used by the concrete runs below. -/
def sampleLease : Lease :=
  { resource := "batch:locks:host-a", value := "tok-1", expiresAt := 100 }

/-- The same lease after a successful extend: same value, later expiry. -/
def sampleLeaseExt : Lease :=
  { resource := "batch:locks:host-a", value := "tok-1", expiresAt := 200 }

/-- A fresh lease as produced by a successful acquire: new value. -/
def sampleFresh : Lease :=
  { resource := "batch:locks:host-a", value := "tok-2", expiresAt := 300 }

/-- A coordinator whose table holds sampleLease for host-a. -/
def sampleState : RedisDistlockLocker :=
  ⟨[("batch:locks:host-a", sampleLease)]⟩

/-- Environment of a lock call whose extend succeeds. -/
def envExtendOk : LockCallEnv :=
  { ext := { pool := .ok 1, op := .ok sampleLeaseExt }
    acq := { pool := .ok 2, op := .error "unused" } }

/-- Environment of a lock call whose extend fails and whose acquire
succeeds. -/
def envExtendFailAcquireOk : LockCallEnv :=
  { ext := { pool := .ok 3, op := .error "quorum-lost" }
    acq := { pool := .ok 4, op := .ok sampleFresh } }

/-- Environment of a lock call whose extend and acquire both fail. -/
def envBothFail : LockCallEnv :=
  { ext := { pool := .ok 5, op := .error "quorum-lost" }
    acq := { pool := .ok 6, op := .error "lock-not-acquired" } }

/-- C1 as amended: when the table holds a lease for the key and the
extend of it succeeds, lock attempts the extend and returns the extended
lease to the caller, but the state is left unchanged: the lease table
entry for the key is not updated to the extended lease. -/
theorem C1_extend_success_returns_without_table_update
    (self : RedisDistlockLocker) (env : LockCallEnv) (host : String)
    (l extended : Lease) (c : Client)
    (hl : getLock self (resourceId host) = some l)
    (hpool : env.ext.pool = .ok c)
    (hok : env.ext.op = .ok extended) :
    hasOp (lockOp self env host).trace .extend = true ∧
    (lockOp self env host).result = .ok extended ∧
    (lockOp self env host).state = self := by
  simp [lockOp, tryExtend, hl, hpool, hok, hasOp]

/-- Witness for the amended C1 on a concrete state and environment. -/
theorem C1_witness :
    hasOp (lockOp sampleState envExtendOk "host-a").trace .extend = true ∧
    (lockOp sampleState envExtendOk "host-a").result = .ok sampleLeaseExt ∧
    (lockOp sampleState envExtendOk "host-a").state = sampleState :=
  C1_extend_success_returns_without_table_update sampleState envExtendOk
    "host-a" sampleLease sampleLeaseExt 1 rfl rfl rfl

/-- C1 as stated is false: after a lock call whose extend succeeds, the
returned lease is the extended one, yet the table entry for the key is
still the old lease, which differs from the extended one. -/
theorem C1_counterexample :
    (lockOp sampleState envExtendOk "host-a").result = .ok sampleLeaseExt ∧
    getLock (lockOp sampleState envExtendOk "host-a").state
        (resourceId "host-a") = some sampleLease ∧
    sampleLease ≠ sampleLeaseExt := by
  refine ⟨rfl, rfl, by decide⟩

/-- Environment of an unlock call whose release reports no error. -/
def envUnlockOk : UnlockEnv := { pool := .ok 7, rel := none }

/-- C2 as amended: when the table holds a lease for the key, unlock runs
the release operation and hands the release outcome (errors included) to
the callback, but it does not remove the table entry: the state is
unchanged and the key still maps to the lease. -/
theorem C2_unlock_releases_but_keeps_entry
    (self : RedisDistlockLocker) (env : UnlockEnv) (host : String)
    (l : Lease) (c : Client)
    (hl : getLock self (resourceId host) = some l)
    (hpool : env.pool = .ok c) :
    hasOp (unlockOp self env host).trace .release = true ∧
    (unlockOp self env host).cbResult = some env.rel ∧
    (unlockOp self env host).state = self ∧
    getLock (unlockOp self env host).state (resourceId host) = some l := by
  simp [unlockOp, hl, hpool, hasOp]

/-- Witness for the amended C2 on a concrete state and environment. -/
theorem C2_witness :
    hasOp (unlockOp sampleState envUnlockOk "host-a").trace .release = true ∧
    (unlockOp sampleState envUnlockOk "host-a").cbResult = some none ∧
    (unlockOp sampleState envUnlockOk "host-a").state = sampleState ∧
    getLock (unlockOp sampleState envUnlockOk "host-a").state
        (resourceId "host-a") = some sampleLease :=
  C2_unlock_releases_but_keeps_entry sampleState envUnlockOk "host-a"
    sampleLease 7 rfl rfl

/-- C2 as stated is false: after an unlock whose release succeeded, the
lease table still has an entry for the key. -/
theorem C2_counterexample :
    (unlockOp sampleState envUnlockOk "host-a").cbResult = some none ∧
    getLock (unlockOp sampleState envUnlockOk "host-a").state
        (resourceId "host-a") = some sampleLease := by
  exact ⟨rfl, rfl⟩

/-- C3: when the table holds a lease for the key and the extend attempt
fails for any reason, lock performs a fresh acquire (the call trace is
exactly the extend attempt followed by the acquire attempt and the
callback); if the acquire succeeds its lease is stored in the table and
returned, and if the acquire fails that failure is propagated to the
caller as the error result, so no lease is returned. -/
theorem C3_extend_failure_falls_back_to_acquire
    (self : RedisDistlockLocker) (env : LockCallEnv) (host : String)
    (l : Lease) (e : Err)
    (hl : getLock self (resourceId host) = some l)
    (hext : (tryExtend env.ext).2 = .error e) :
    (lockOp self env host).trace
        = (tryExtend env.ext).1 ++ (tryAcquire env.acq).1 ++ [.callbackFired] ∧
    (∀ fresh : Lease, (tryAcquire env.acq).2 = .ok fresh →
        (lockOp self env host).result = .ok fresh ∧
        getLock (lockOp self env host).state (resourceId host) = some fresh) ∧
    (∀ e2 : Err, (tryAcquire env.acq).2 = .error e2 →
        (lockOp self env host).result = .error e2) := by
  cases hacq : (tryAcquire env.acq).2 with
  | ok fresh =>
      refine ⟨?_, ?_, ?_⟩
      · simp [lockOp, hl, hext, hacq]
      · intro f hf
        cases hf
        constructor
        · simp [lockOp, hl, hext, hacq]
        · simp only [lockOp, hl, hext, hacq]
          exact getLock_setLock self (resourceId host) fresh
      · intro e2 he2
        cases he2
  | error e2 =>
      refine ⟨?_, ?_, ?_⟩
      · simp [lockOp, hl, hext, hacq]
      · intro f hf
        cases hf
      · intro e3 he3
        cases he3
        simp [lockOp, hl, hext, hacq]

/-- Witness for C3 on a concrete state and environment in which the
extend fails and the acquire succeeds. -/
theorem C3_witness :
    (lockOp sampleState envExtendFailAcquireOk "host-a").trace
        = (tryExtend envExtendFailAcquireOk.ext).1
            ++ (tryAcquire envExtendFailAcquireOk.acq).1
            ++ [.callbackFired] ∧
    (∀ fresh : Lease,
        (tryAcquire envExtendFailAcquireOk.acq).2 = .ok fresh →
        (lockOp sampleState envExtendFailAcquireOk "host-a").result
            = .ok fresh ∧
        getLock (lockOp sampleState envExtendFailAcquireOk "host-a").state
            (resourceId "host-a") = some fresh) ∧
    (∀ e2 : Err,
        (tryAcquire envExtendFailAcquireOk.acq).2 = .error e2 →
        (lockOp sampleState envExtendFailAcquireOk "host-a").result
            = .error e2) :=
  C3_extend_failure_falls_back_to_acquire sampleState envExtendFailAcquireOk
    "host-a" sampleLease "quorum-lost" rfl rfl

/-- C4 as amended: when the extend attempt fails and the re-acquire also
fails, the error is propagated to the caller, but the lease is not removed
from the table: the state is unchanged and a later lookup of the key still
finds the old lease. -/
theorem C4_double_failure_keeps_stale_entry
    (self : RedisDistlockLocker) (env : LockCallEnv) (host : String)
    (l : Lease) (e e2 : Err)
    (hl : getLock self (resourceId host) = some l)
    (hext : (tryExtend env.ext).2 = .error e)
    (hacq : (tryAcquire env.acq).2 = .error e2) :
    (lockOp self env host).result = .error e2 ∧
    (lockOp self env host).state = self ∧
    getLock (lockOp self env host).state (resourceId host) = some l := by
  simp [lockOp, hl, hext, hacq]

/-- Witness for the amended C4 on a concrete state and environment. -/
theorem C4_witness :
    (lockOp sampleState envBothFail "host-a").result
        = .error "lock-not-acquired" ∧
    (lockOp sampleState envBothFail "host-a").state = sampleState ∧
    getLock (lockOp sampleState envBothFail "host-a").state
        (resourceId "host-a") = some sampleLease :=
  C4_double_failure_keeps_stale_entry sampleState envBothFail "host-a"
    sampleLease "quorum-lost" "lock-not-acquired" rfl rfl rfl

/-- C4 as stated is false: after a lock call in which both the extend and
the re-acquire failed, a lookup of the key still finds the old lease in
the table instead of no lease. -/
theorem C4_counterexample :
    (lockOp sampleState envBothFail "host-a").result
        = .error "lock-not-acquired" ∧
    getLock (lockOp sampleState envBothFail "host-a").state
        (resourceId "host-a") = some sampleLease := by
  exact ⟨rfl, rfl⟩

/-- Environment of an unlock call whose release reports an error. -/
def envUnlockErr : UnlockEnv := { pool := .ok 8, rel := some "release-error" }

/-- C5 as amended: because unlock leaves the table entry in place, a
second unlock on the same key is not a no-op: it finds the lease still in
the table, performs the release operation again, and hands the second
release outcome (errors included) to its callback. -/
theorem C5_second_unlock_repeats_release
    (self : RedisDistlockLocker) (env1 env2 : UnlockEnv) (host : String)
    (l : Lease) (c1 c2 : Client)
    (hl : getLock self (resourceId host) = some l)
    (h1 : env1.pool = .ok c1)
    (h2 : env2.pool = .ok c2) :
    hasOp (unlockOp (unlockOp self env1 host).state env2 host).trace
        .release = true ∧
    (unlockOp (unlockOp self env1 host).state env2 host).cbResult
        = some env2.rel := by
  simp [unlockOp, hl, h1, h2, hasOp]

/-- Witness for the amended C5 on a concrete state and environments. -/
theorem C5_witness :
    hasOp (unlockOp (unlockOp sampleState envUnlockOk "host-a").state
        envUnlockErr "host-a").trace .release = true ∧
    (unlockOp (unlockOp sampleState envUnlockOk "host-a").state
        envUnlockErr "host-a").cbResult = some (some "release-error") :=
  C5_second_unlock_repeats_release sampleState envUnlockOk envUnlockErr
    "host-a" sampleLease 7 8 rfl rfl rfl

/-- C5 as stated is false: after a first successful unlock of host-a, a
second unlock call on the same key performs a release operation and
surfaces the release error to its callback. -/
theorem C5_counterexample :
    hasOp (unlockOp (unlockOp sampleState envUnlockOk "host-a").state
        envUnlockErr "host-a").trace .release = true ∧
    (unlockOp (unlockOp sampleState envUnlockOk "host-a").state
        envUnlockErr "host-a").cbResult = some (some "release-error") ∧
    some (some "release-error") ≠ (none : Option (Option Err)) := by
  refine ⟨rfl, rfl, by decide⟩

/-- Environment of a lock call on an expired lease whose extend
nevertheless succeeds. -/
def envExtendOkStale : LockCallEnv :=
  { ext := { pool := .ok 9, op := .ok sampleLeaseExt }
    acq := { pool := .ok 10, op := .error "unused" } }

/-- C6 as amended: the coordinator never compares expiresAt with the
current time; a table entry whose expiry has passed is used exactly like a
live lease: lock still attempts to extend it (relying on the store-side
check to fail), and the entry is never discarded: after the call the table
still holds a lease for the key. -/
theorem C6_expired_lease_not_discarded
    (self : RedisDistlockLocker) (env : LockCallEnv) (host : String)
    (l : Lease) (now : Nat) (c : Client)
    (hl : getLock self (resourceId host) = some l)
    (hexp : l.expiresAt < now)
    (hpool : env.ext.pool = .ok c) :
    hasOp (lockOp self env host).trace .extend = true ∧
    getLock (lockOp self env host).state (resourceId host) ≠ none := by
  cases ho : env.ext.op with
  | ok extended =>
      constructor
      · simp [lockOp, tryExtend, hl, hpool, ho, hasOp]
      · simp [lockOp, tryExtend, hl, hpool, ho]
  | error e =>
      cases hacq : (tryAcquire env.acq).2 with
      | ok fresh =>
          constructor
          · simp [lockOp, tryExtend, hl, hpool, ho, hacq, hasOp]
          · simp [lockOp, tryExtend, hl, hpool, ho, hacq, getLock_setLock]
      | error e2 =>
          constructor
          · simp [lockOp, tryExtend, hl, hpool, ho, hacq, hasOp]
          · simp [lockOp, tryExtend, hl, hpool, ho, hacq, hl]

/-- Witness for the amended C6: at time 200 the sample lease (expiry 100)
has expired, yet lock still attempts the extend and keeps an entry. -/
theorem C6_witness :
    hasOp (lockOp sampleState envExtendOkStale "host-a").trace .extend
        = true ∧
    getLock (lockOp sampleState envExtendOkStale "host-a").state
        (resourceId "host-a") ≠ none :=
  C6_expired_lease_not_discarded sampleState envExtendOkStale "host-a"
    sampleLease 200 9 rfl (by decide) rfl

/-- C6 as stated is false: the sample lease expired at 100, so at time
200 it should be treated as no lease held and discarded on use; instead
the lock call attempts to extend it, returns the extension, and the stale
entry stays in the table. -/
theorem C6_counterexample :
    sampleLease.expiresAt < 200 ∧
    getLock sampleState (resourceId "host-a") = some sampleLease ∧
    hasOp (lockOp sampleState envExtendOkStale "host-a").trace .extend
        = true ∧
    (lockOp sampleState envExtendOkStale "host-a").result
        = .ok sampleLeaseExt ∧
    getLock (lockOp sampleState envExtendOkStale "host-a").state
        (resourceId "host-a") = some sampleLease := by
  refine ⟨by decide, rfl, rfl, rfl, rfl⟩

/-- Modelled from the spec: the Quorum Lock Primitive of section 4.2 (the
external redlock library, whose internals are not part of src/).  The
agreement threshold over n store nodes is a majority. -/
def majorityThreshold (n : Nat) : Nat := n / 2 + 1

/-- Modelled from the spec: a snapshot, at one instant, of what owner
token each of the n store nodes currently stores for the contended
resource key; a node stores at most one token per key and grants an
acquire of a value only by storing that value (conditional set-if-absent). -/
def StoreSnapshot (n : Nat) := Fin n → Option String

/-- Modelled from the spec: at an instant, a value is granted by a node
set when every node of the set stores exactly that value for the key. -/
def grantedBy {n : Nat} (store : StoreSnapshot n) (s : Finset (Fin n))
    (v : String) : Prop :=
  ∀ i ∈ s, store i = some v

/-- C8: at any instant, at most one owner value is granted by a majority
of the store nodes: two node sets of majority size that grant values store
those values on a common node, so the values coincide.  In particular two
concurrent acquire attempts, which use distinct fresh values, cannot both
reach a majority. -/
theorem C8_quorum_mutual_exclusion (n : Nat) (store : StoreSnapshot n)
    (s1 s2 : Finset (Fin n)) (v1 v2 : String)
    (hc1 : majorityThreshold n ≤ s1.card)
    (hc2 : majorityThreshold n ≤ s2.card)
    (hg1 : grantedBy store s1 v1)
    (hg2 : grantedBy store s2 v2) :
    v1 = v2 := by
  have hu : (s1 ∪ s2).card ≤ n := by
    have := Finset.card_le_univ (s1 ∪ s2)
    simpa using this
  have hsum := Finset.card_union_add_card_inter s1 s2
  have hinter : 0 < (s1 ∩ s2).card := by
    unfold majorityThreshold at hc1 hc2
    omega
  obtain ⟨i, hi⟩ := Finset.card_pos.mp hinter
  have h1 := hg1 i (Finset.mem_of_mem_inter_left hi)
  have h2 := hg2 i (Finset.mem_of_mem_inter_right hi)
  rw [h1] at h2
  exact Option.some.inj h2

/-- Witness for C8 with one node storing one token, granted by the whole
(majority-sized) node set for the same value on both sides. -/
theorem C8_witness : ("tok-1" : String) = "tok-1" :=
  C8_quorum_mutual_exclusion 1 (fun _ => some "tok-1") Finset.univ
    Finset.univ "tok-1" "tok-1" (by decide) (by decide)
    (fun _ _ => rfl) (fun _ _ => rfl)

end Distlock
